import Mathlib

/-!
Verification development for the petstore-api-workers repository.

The repository has two tools: a JWT-style token issuer
(petstore-api-keys/create_customer_token.py) and a traffic driver
(traffic-simulator.py) that keeps local mirrors of remote pet/user/order
collections.  The definitions below are a shallow embedding of the parts of
that code the verified properties talk about:

- pure data manipulation (Customer.to_dict, the JWT payload construction) is
  translated directly, with Python dict literals modelled as association
  lists where a later binding for the same key overwrites the earlier one;
- the wall clock is a sequence of integer readings (one per time call);
- HTTP traffic is modelled by an outcome oracle per request: either a
  response with a status code, or one of the caught exception classes
  (timeout, connection error, other); randomness (random.choice) is an
  arbitrary natural number reduced modulo the candidate-list length.
-/

set_option maxHeartbeats 1000000

namespace Petstore

/-! ## Token issuer: create_customer_token.py -/

/-- JSON-ish values that can appear in a claims payload. -/
inductive PyVal where
  | str : String → PyVal
  | int : Int → PyVal
  | boolean : Bool → PyVal
  | null : PyVal
deriving DecidableEq, Repr

/-- CustomerType enum (free / standard / premium). -/
inductive CustomerType where
  | free
  | standard
  | premium
deriving DecidableEq, Repr

/-- CustomerType.value, the string carried in the token claims. -/
def CustomerType.value : CustomerType → String
  | CustomerType.free => "free"
  | CustomerType.standard => "standard"
  | CustomerType.premium => "premium"

/-- Customer record (class Customer in create_customer_token.py).
additional_metadata is a Python dict; we keep its entries as a list of
bindings in insertion order. -/
structure Customer where
  username : String
  customer_type : CustomerType
  email : String
  company : Option String
  subscription_tier : Option String
  additional_metadata : List (String × PyVal)
deriving DecidableEq, Repr

/-- Optional string fields serialize as the value or as null. -/
def optStr : Option String → PyVal
  | some s => PyVal.str s
  | Option.none => PyVal.null

/-- Python dict assignment semantics (d[k] = v): writing key k keeps the
original position of an existing binding but replaces its value; a fresh
key is appended at the end.  Keys are unique in every dict built from []
by repeated assignment, so replacing the first binding is replacing the
binding. -/
def dictSet : List (String × PyVal) → String → PyVal → List (String × PyVal)
  | [], k, v => [(k, v)]
  | e :: d, k, v => if e.1 == k then (k, v) :: d else e :: dictSet d k v

/-- A Python dict literal built from a sequence of key/value entries in
evaluation order (duplicate keys: the later entry wins, as with the
spread of additional_metadata in Customer.to_dict). -/
def dictOfEntries (entries : List (String × PyVal)) : List (String × PyVal) :=
  entries.foldl (fun d e => dictSet d e.1 e.2) []

/-- Dict lookup (keys are unique in a dict built by dictSet). -/
def dictGet (d : List (String × PyVal)) (k : String) : Option PyVal :=
  (d.find? (fun e => e.1 == k)).map (fun e => e.2)

/-- The last binding of key k in a raw entry list, which is the binding a
Python dict literal retains for k. -/
def lastBinding : List (String × PyVal) → String → Option PyVal
  | [], _ => Option.none
  | e :: rest, k =>
    match lastBinding rest k with
    | some v => some v
    | Option.none => if e.1 == k then some e.2 else Option.none

/-- Customer.to_dict: the five fixed fields followed by the spread of
additional_metadata, so metadata entries override fixed fields of the same
name. -/
def Customer.to_dict (c : Customer) : List (String × PyVal) :=
  dictOfEntries
    ([("username", PyVal.str c.username),
      ("customer_type", PyVal.str c.customer_type.value),
      ("email", PyVal.str c.email),
      ("company", optStr c.company),
      ("subscription_tier", optStr c.subscription_tier)] ++
      c.additional_metadata)

/-- TokenGenerator state: issuer/audience/algorithm/key id configuration and
the registered customers keyed by username (key loading is out of scope). -/
structure TokenGenerator where
  issuer : String
  audience : String
  algorithm : String
  key_id : String
  customers : List (String × Customer)
deriving DecidableEq, Repr

/-- The signed claims payload built by TokenGenerator.generate_token (the
signature itself is an external library call and out of scope). -/
structure Payload where
  iss : String
  aud : String
  sub : String
  exp : Int
  iat : Int
  username : String
  customer_type : String
  customer : List (String × PyVal)
deriving DecidableEq, Repr

/-- TokenGenerator.generate_token.  The payload dict literal evaluates its
entries in order, so the exp entry reads the clock first (clock 0) and the
iat entry reads it again (clock 1).  An unknown username raises ValueError,
modelled as Except.error. -/
def TokenGenerator.generate_token (g : TokenGenerator) (username : String)
    (expiration_seconds : Int) (clock : Nat → Int) : Except String Payload :=
  match g.customers.find? (fun e => e.1 == username) with
  | Option.none => Except.error ("Customer " ++ username ++ " not found")
  | some e =>
    Except.ok
      { iss := g.issuer
        aud := g.audience
        sub := username
        exp := clock 0 + expiration_seconds
        iat := clock 1
        username := username
        customer_type := e.2.customer_type.value
        customer := e.2.to_dict }

/-- A minimal registered customer used to evaluate the token generator on
concrete inputs. -/
def sampleCustomer : Customer :=
  { username := "u"
    customer_type := CustomerType.free
    email := "u@example.com"
    company := Option.none
    subscription_tier := Option.none
    additional_metadata := [] }

/-- A generator knowing only sampleCustomer. -/
def sampleGenerator : TokenGenerator :=
  { issuer := "iss"
    audience := "aud"
    algorithm := "ES256"
    key_id := "kid"
    customers := [("u", sampleCustomer)] }

/-- The payload produced for sampleCustomer at a constant clock of 100 and a
requested duration of 10 seconds. -/
def samplePayload : Payload :=
  { iss := "iss"
    aud := "aud"
    sub := "u"
    exp := 110
    iat := 100
    username := "u"
    customer_type := "free"
    customer := sampleCustomer.to_dict }

/-- A customer whose metadata reuses the fixed field name username. -/
def demoCustomer : Customer :=
  { username := "alice"
    customer_type := CustomerType.premium
    email := "alice@example.com"
    company := Option.none
    subscription_tier := Option.none
    additional_metadata := [("username", PyVal.str "mallory")] }

/-- A generator knowing only demoCustomer. -/
def demoGenerator : TokenGenerator :=
  { issuer := "iss"
    audience := "aud"
    algorithm := "ES256"
    key_id := "kid"
    customers := [("alice", demoCustomer)] }

/-- The payload produced for demoCustomer at a constant clock of 0 and a
requested duration of 60 seconds. -/
def demoPayload : Payload :=
  { iss := "iss"
    aud := "aud"
    sub := "alice"
    exp := 60
    iat := 0
    username := "alice"
    customer_type := "premium"
    customer := demoCustomer.to_dict }

/-! ## Traffic driver: traffic-simulator.py

Tracker state and the HTTP operation wrappers.  Remote responses are
oracles; the call trace records which requests an operation issued. -/

/-- The locally tracked entity identifiers (self.pet_ids, self.usernames,
self.order_ids).  Python lists, so duplicates are representable. -/
structure TState where
  pet_ids : List Int
  usernames : List String
  order_ids : List Int
deriving DecidableEq, Repr

/-- The configured population minimums (min_pets / min_users / min_orders
command line flags, arbitrary machine integers). -/
structure Config where
  min_pets : Int
  min_users : Int
  min_orders : Int
deriving DecidableEq, Repr

/-- self.protected_pet_ids = set(range(1, 6)). -/
def protected_pet_ids : List Int := [1, 2, 3, 4, 5]

/-- self.protected_user_ids = set(range(1, 6)). -/
def protected_user_ids : List Int := [1, 2, 3, 4, 5]

/-- self.protected_order_ids = set(range(1, 6)). -/
def protected_order_ids : List Int := [1, 2, 3, 4, 5]

/-- One HTTP request issued by the driver, as visible on the wire. -/
inductive ApiCall where
  | createPet
  | createUser
  | createOrder
  | deletePet : Int → ApiCall
  | deleteUser : String → ApiCall
  | deleteOrder : Int → ApiCall
  | getPet : Int → ApiCall
  | updatePet
deriving DecidableEq, Repr

/-- The outcome of one HTTP request: a response with a status code, or one
of the exception classes caught in make_request. -/
inductive ReqOutcome where
  | ok : Nat → ReqOutcome
  | timeout
  | connError
  | exc
deriving DecidableEq, Repr

/-- Python substring test on character lists (needle in haystack). -/
def charSeqContains : List Char → List Char → Bool
  | needle, [] => needle.isEmpty
  | needle, c :: rest => needle.isPrefixOf (c :: rest) || charSeqContains needle rest

/-- Python substring test on strings. -/
def pyIn (needle haystack : String) : Bool :=
  charSeqContains needle.toList haystack.toList

/-- The 404 cleanup inside make_request's HTTPStatusError handler: scan the
tracked list of the entity family named in the endpoint and remove the first
identifier whose decimal string occurs as a substring of the endpoint (the
loop breaks after one removal). -/
def reconcile404 (endpoint : String) (s : TState) : TState :=
  if pyIn "pet" endpoint && s.pet_ids.any (fun pid => pyIn (toString pid) endpoint) then
    { s with pet_ids := s.pet_ids.eraseP (fun pid => pyIn (toString pid) endpoint) }
  else if pyIn "user" endpoint && s.usernames.any (fun u => pyIn u endpoint) then
    { s with usernames := s.usernames.eraseP (fun u => pyIn u endpoint) }
  else if pyIn "order" endpoint && s.order_ids.any (fun oid => pyIn (toString oid) endpoint) then
    { s with order_ids := s.order_ids.eraseP (fun oid => pyIn (toString oid) endpoint) }
  else s

/-- PetstoreTrafficSimulator._make_request.  Returns the response status
when a response object is returned to the caller, and none when an exception
was caught (timeout, connection error, HTTPStatusError from
raise_for_status, or any other exception).  DELETE short-circuits statuses
200/204 before raise_for_status; httpx's raise_for_status raises for every
non-2xx status, and a 404 additionally runs the tracking cleanup. -/
def make_request (method endpoint : String) (s : TState) (o : ReqOutcome) :
    TState × Option Nat :=
  match o with
  | ReqOutcome.ok status =>
    if method = "delete" ∧ (status = 200 ∨ status = 204) then (s, some status)
    else if 200 ≤ status ∧ status < 300 then (s, some status)
    else if status = 404 then (reconcile404 endpoint s, Option.none)
    else (s, Option.none)
  | _ => (s, Option.none)

/-- random.choice on a nonempty list, with the random draw supplied as an
arbitrary natural number reduced modulo the list length. -/
def pyChoice {α : Type} (l : List α) (d : α) (rand : Nat) : α :=
  l.getD (rand % l.length) d

/-- create_random_pet: one POST /pet is always issued; resp collapses the
request outcome and the id-field parse of the response body (some id when
the request succeeded and the body carried an id, which is then appended to
pet_ids; none otherwise).  The POST /pet endpoint contains no decimal
digits, so the 404 cleanup can never match a tracked numeric id there and
the tracked state is otherwise untouched. -/
def create_random_pet (s : TState) (resp : Option Int) : TState × List ApiCall :=
  match resp with
  | some pid => ({ s with pet_ids := s.pet_ids ++ [pid] }, [ApiCall.createPet])
  | Option.none => (s, [ApiCall.createPet])

/-- create_random_user: one POST /user is always issued; the locally
generated username uname is appended whenever the request returns a
response (ok), with no body parse. -/
def create_random_user (s : TState) (uname : String) (ok : Bool) :
    TState × List ApiCall :=
  if ok then ({ s with usernames := s.usernames ++ [uname] }, [ApiCall.createUser])
  else (s, [ApiCall.createUser])

/-- create_random_order: returns without issuing any request when no pet is
tracked; otherwise one POST /store/order is issued and resp collapses the
request outcome and the id-field parse as for pets. -/
def create_random_order (s : TState) (resp : Option Int) : TState × List ApiCall :=
  if s.pet_ids.isEmpty then (s, [])
  else
    match resp with
    | some oid => ({ s with order_ids := s.order_ids ++ [oid] }, [ApiCall.createOrder])
    | Option.none => (s, [ApiCall.createOrder])

/-- The pet-replenishment loop of ensure_minimum_entities: n calls to
create_random_pet, consuming indexed responses starting at index i. -/
def petLoop (pr : Nat → Option Int) : Nat → Nat → TState → TState × List ApiCall
  | _, 0, s => (s, [])
  | i, n + 1, s =>
    let r := create_random_pet s (pr i)
    let rest := petLoop pr (i + 1) n r.1
    (rest.1, r.2 ++ rest.2)

/-- The user-replenishment loop of ensure_minimum_entities. -/
def userLoop (un : Nat → String) (uo : Nat → Bool) :
    Nat → Nat → TState → TState × List ApiCall
  | _, 0, s => (s, [])
  | i, n + 1, s =>
    let r := create_random_user s (un i) (uo i)
    let rest := userLoop un uo (i + 1) n r.1
    (rest.1, r.2 ++ rest.2)

/-- The order-replenishment loop of ensure_minimum_entities. -/
def orderLoop (orr : Nat → Option Int) :
    Nat → Nat → TState → TState × List ApiCall
  | _, 0, s => (s, [])
  | i, n + 1, s =>
    let r := create_random_order s (orr i)
    let rest := orderLoop orr (i + 1) n r.1
    (rest.1, r.2 ++ rest.2)

/-- ensure_minimum_entities: for each kind, compute
max(0, minimum - local count) and run that many creates; the order loop is
additionally guarded by len(self.pet_ids) > 0, checked after the pet
loop ran. -/
def ensure_minimum_entities (cfg : Config) (s : TState)
    (pr : Nat → Option Int) (un : Nat → String) (uo : Nat → Bool)
    (orr : Nat → Option Int) : TState × List ApiCall :=
  let petN := (cfg.min_pets - (s.pet_ids.length : Int)).toNat
  let r1 := petLoop pr 0 petN s
  let userN := (cfg.min_users - (r1.1.usernames.length : Int)).toNat
  let r2 := userLoop un uo 0 userN r1.1
  let orderN := (cfg.min_orders - (r2.1.order_ids.length : Int)).toNat
  if 0 < orderN ∧ ¬r2.1.pet_ids.isEmpty then
    let r3 := orderLoop orr 0 orderN r2.1
    (r3.1, r1.2 ++ r2.2 ++ r3.2)
  else (r2.1, r1.2 ++ r2.2)

/-- delete_pet: DELETE /pet/pet_id; both 200 and 204 count as success, in
which case pet_id is removed from pet_ids (remove of the first occurrence,
guarded by membership); any other outcome is failure. -/
def delete_pet (s : TState) (pet_id : Int) (o : ReqOutcome) :
    TState × List ApiCall × Bool :=
  let r := make_request "delete" ("/pet/" ++ toString pet_id) s o
  match r.2 with
  | some st =>
    if st = 200 ∨ st = 204 then
      ({ r.1 with pet_ids := r.1.pet_ids.erase pet_id }, [ApiCall.deletePet pet_id], true)
    else (r.1, [ApiCall.deletePet pet_id], false)
  | Option.none => (r.1, [ApiCall.deletePet pet_id], false)

/-- delete_user: DELETE /user/username; any returned response counts as
success and removes the username from tracking. -/
def delete_user (s : TState) (username : String) (o : ReqOutcome) :
    TState × List ApiCall × Bool :=
  let r := make_request "delete" ("/user/" ++ username) s o
  match r.2 with
  | some _ =>
    ({ r.1 with usernames := r.1.usernames.erase username }, [ApiCall.deleteUser username], true)
  | Option.none => (r.1, [ApiCall.deleteUser username], false)

/-- delete_order: DELETE /store/order/order_id; any returned response counts
as success and removes the order id from tracking. -/
def delete_order (s : TState) (order_id : Int) (o : ReqOutcome) :
    TState × List ApiCall × Bool :=
  let r := make_request "delete" ("/store/order/" ++ toString order_id) s o
  match r.2 with
  | some _ =>
    ({ r.1 with order_ids := r.1.order_ids.erase order_id }, [ApiCall.deleteOrder order_id], true)
  | Option.none => (r.1, [ApiCall.deleteOrder order_id], false)

/-- get_pet_by_id: GET /pet/pet_id. -/
def get_pet_by_id (s : TState) (pet_id : Int) (o : ReqOutcome) :
    TState × List ApiCall :=
  ((make_request "get" ("/pet/" ++ toString pet_id) s o).1, [ApiCall.getPet pet_id])

/-- update_pet: GET /pet/pet_id, and on a response a PUT /pet with the
mutated body. -/
def update_pet (s : TState) (pet_id : Int) (o1 o2 : ReqOutcome) :
    TState × List ApiCall × Bool :=
  let r1 := make_request "get" ("/pet/" ++ toString pet_id) s o1
  match r1.2 with
  | Option.none => (r1.1, [ApiCall.getPet pet_id], false)
  | some _ =>
    let r2 := make_request "put" "/pet" r1.1 o2
    match r2.2 with
    | Option.none => (r2.1, [ApiCall.getPet pet_id, ApiCall.updatePet], false)
    | some _ => (r2.1, [ApiCall.getPet pet_id, ApiCall.updatePet], true)

/-- The deletion candidates of op_delete_pet: tracked pets outside the
protected range. -/
def deletable_pets (s : TState) : List Int :=
  s.pet_ids.filter (fun pid => !(protected_pet_ids.contains pid))

/-- The protected usernames of op_delete_user, derived from
protected_user_ids. -/
def protected_usernames : List String :=
  protected_user_ids.map (fun i => "user" ++ toString i)

/-- The deletion candidates of op_delete_user. -/
def deletable_users (s : TState) : List String :=
  s.usernames.filter (fun u => !(protected_usernames.contains u))

/-- The deletion candidates of op_delete_order. -/
def deletable_orders (s : TState) : List Int :=
  s.order_ids.filter (fun oid => !(protected_order_ids.contains oid))

/-- op_delete_pet: returns with no request when nothing is tracked; creates
a pet instead when no candidate is deletable or the candidate count is at
the threshold min_pets - len(protected_pet_ids); otherwise deletes a random
candidate, and on failure removes it from tracking anyway. -/
def op_delete_pet (cfg : Config) (s : TState) (rand : Nat) (o : ReqOutcome)
    (pr : Option Int) : TState × List ApiCall :=
  if s.pet_ids.isEmpty then (s, [])
  else if (deletable_pets s).isEmpty then create_random_pet s pr
  else if ((deletable_pets s).length : Int) ≤
      cfg.min_pets - (protected_pet_ids.length : Int) then
    create_random_pet s pr
  else
    let pet_id := pyChoice (deletable_pets s) 0 rand
    let r := delete_pet s pet_id o
    if r.2.2 then (r.1, r.2.1)
    else ({ r.1 with pet_ids := r.1.pet_ids.erase pet_id }, r.2.1)

/-- op_delete_user: same policy as op_delete_pet over usernames, with the
protected range spelled as user1..user5. -/
def op_delete_user (cfg : Config) (s : TState) (rand : Nat) (o : ReqOutcome)
    (uname : String) (uok : Bool) : TState × List ApiCall :=
  if s.usernames.isEmpty then (s, [])
  else if (deletable_users s).isEmpty then create_random_user s uname uok
  else if ((deletable_users s).length : Int) ≤
      cfg.min_users - (protected_user_ids.length : Int) then
    create_random_user s uname uok
  else
    let username := pyChoice (deletable_users s) "" rand
    let r := delete_user s username o
    (r.1, r.2.1)

/-- op_delete_order: same policy over order ids. -/
def op_delete_order (cfg : Config) (s : TState) (rand : Nat) (o : ReqOutcome)
    (orr : Option Int) : TState × List ApiCall :=
  if s.order_ids.isEmpty then (s, [])
  else if (deletable_orders s).isEmpty then create_random_order s orr
  else if ((deletable_orders s).length : Int) ≤
      cfg.min_orders - (protected_order_ids.length : Int) then
    create_random_order s orr
  else
    let order_id := pyChoice (deletable_orders s) 0 rand
    let r := delete_order s order_id o
    (r.1, r.2.1)

/-- op_update_pet: update a random tracked pet, or create one when none is
tracked. -/
def op_update_pet (s : TState) (rand : Nat) (o1 o2 : ReqOutcome)
    (pr : Option Int) : TState × List ApiCall :=
  if s.pet_ids.isEmpty then create_random_pet s pr
  else
    let r := update_pet s (pyChoice s.pet_ids 0 rand) o1 o2
    (r.1, r.2.1)

/-- op_get_pet: fetch a random tracked pet, or create one when none is
tracked. -/
def op_get_pet (s : TState) (rand : Nat) (o : ReqOutcome) (pr : Option Int) :
    TState × List ApiCall :=
  if s.pet_ids.isEmpty then create_random_pet s pr
  else get_pet_by_id s (pyChoice s.pet_ids 0 rand) o

/-- The value of the authentication header chosen by _get_auth_header: a
random loaded JWT token when any are loaded, else the static API key. -/
def get_auth_header (jwt_tokens : List String) (api_key : String)
    (rand : Nat) : String :=
  if jwt_tokens.isEmpty then api_key
  else pyChoice jwt_tokens "" rand

/-! ## Dict semantics lemmas -/

/-- Dict lookup steps through a cons by comparing the head key. -/
theorem dictGet_cons (e : String × PyVal) (d : List (String × PyVal))
    (k : String) :
    dictGet (e :: d) k = if e.1 == k then some e.2 else dictGet d k := by
  cases h : (e.1 == k) <;> simp [dictGet, List.find?, h]

/-- Lookup after a Python dict assignment: the written key resolves to the
new value and every other key is unaffected. -/
theorem dictGet_dictSet (d : List (String × PyVal)) (k k' : String)
    (v : PyVal) :
    dictGet (dictSet d k v) k' = if k' = k then some v else dictGet d k' := by
  induction d with
  | nil =>
    by_cases hk : k' = k
    · simp [dictGet, dictSet, List.find?, hk]
    · have hkb : (k == k') = false := beq_eq_false_iff_ne.mpr fun hh => hk hh.symm
      simp [dictGet, dictSet, List.find?, hk, hkb]
  | cons e d ih =>
    by_cases he : e.1 = k
    · have heb : (e.1 == k) = true := beq_iff_eq.mpr he
      have hset : dictSet (e :: d) k v = (k, v) :: d := by simp [dictSet, heb]
      rw [hset, dictGet_cons]
      by_cases hk : k' = k
      · subst hk
        simp
      · have hkb : (k == k') = false := beq_eq_false_iff_ne.mpr fun hh => hk hh.symm
        have heb2 : (e.1 == k') = false := by rw [he]; exact hkb
        rw [dictGet_cons]
        simp [hkb, heb2, hk]
    · have heb : (e.1 == k) = false := beq_eq_false_iff_ne.mpr he
      have hset : dictSet (e :: d) k v = e :: dictSet d k v := by simp [dictSet, heb]
      rw [hset, dictGet_cons, ih]
      by_cases hek : e.1 = k'
      · have heb3 : (e.1 == k') = true := beq_iff_eq.mpr hek
        have hk : ¬k' = k := fun hh => he (by rw [hek, hh])
        rw [dictGet_cons]
        simp [heb3, hk]
      · have heb3 : (e.1 == k') = false := beq_eq_false_iff_ne.mpr hek
        rw [dictGet_cons]
        simp [heb3]

/-- Lookup in a dict literal built by folding assignments over an entry
list: the last binding of the key among the entries wins, and the starting
dict is consulted only when the entries never bind the key. -/
theorem dictGet_foldl_dictSet (l : List (String × PyVal))
    (d : List (String × PyVal)) (k : String) :
    dictGet (l.foldl (fun d e => dictSet d e.1 e.2) d) k =
      match lastBinding l k with
      | some v => some v
      | Option.none => dictGet d k := by
  induction l generalizing d with
  | nil => simp [lastBinding]
  | cons e l ih =>
    simp only [List.foldl_cons]
    rw [ih]
    rcases hlb : lastBinding l k with _ | v
    · simp only [lastBinding, hlb, dictGet_dictSet]
      by_cases hk : e.1 = k
      · have heb : (e.1 == k) = true := beq_iff_eq.mpr hk
        simp [heb, hk.symm]
      · have heb : (e.1 == k) = false := beq_eq_false_iff_ne.mpr hk
        have hk2 : ¬(k = e.1) := fun hh => hk hh.symm
        simp [heb, hk2]
    · simp [lastBinding, hlb]

/-- The last binding in an appended entry list: the right-hand entries win
when they bind the key at all. -/
theorem lastBinding_append (a b : List (String × PyVal)) (k : String) :
    lastBinding (a ++ b) k =
      match lastBinding b k with
      | some v => some v
      | Option.none => lastBinding a k := by
  induction a with
  | nil =>
    simp only [List.nil_append]
    rcases h : lastBinding b k with _ | v <;> simp [lastBinding, h]
  | cons e a ih =>
    simp only [List.cons_append, lastBinding, List.append_eq]
    rw [ih]
    rcases h : lastBinding b k with _ | v
    · rcases h2 : lastBinding a k with _ | w <;> simp
    · simp

/-! ## Claim C10, C6, C8 theorems -/

/-- C10: when additional_metadata binds one of the fixed field names,
Customer.to_dict returns the metadata value for that key in place of the
fixed field's value; concretely (demoCustomer), the signed payload's
top-level username claim is alice while the nested customer username claim
is mallory, so the nested customer claims can disagree with the top-level
claims of the same token. -/
theorem metadata_overrides_fixed_fields (c : Customer) (k : String)
    (v : PyVal)
    (hk : k ∈ ["username", "customer_type", "email", "company",
      "subscription_tier"])
    (hv : lastBinding c.additional_metadata k = some v) :
    dictGet c.to_dict k = some v ∧
    demoGenerator.generate_token "alice" 60 (fun _ => 0) =
      Except.ok demoPayload ∧
    demoPayload.username = "alice" ∧
    dictGet demoPayload.customer "username" = some (PyVal.str "mallory") := by
  refine ⟨?_, by rfl, by rfl, by decide⟩
  unfold Customer.to_dict dictOfEntries
  rw [dictGet_foldl_dictSet, lastBinding_append, hv]

/-- C10 witness: the override theorem evaluated at demoCustomer's metadata
binding of username. -/
theorem metadata_overrides_fixed_fields_witness :
    dictGet demoCustomer.to_dict "username" = some (PyVal.str "mallory") :=
  (metadata_overrides_fixed_fields demoCustomer "username"
    (PyVal.str "mallory") (by decide) (by decide)).1

/-- C6 counterexample: with two consecutive clock readings 100 and 101 (the
exp entry of the payload dict reads the clock before the iat entry does),
the generated payload has exp = 110 and iat = 101 for requested duration
10, and 110 is not 101 + 10 — the claim exp = iat + duration fails. -/
theorem token_two_clock_reads_cex :
    (TokenGenerator.generate_token sampleGenerator "u" 10
        (fun i => 100 + (i : Int))).toOption.map (fun p => (p.exp, p.iat)) =
      some (110, 101) ∧ ¬((110 : Int) = 101 + 10) :=
  ⟨by decide, by decide⟩

/-- C6 amended: the exp claim equals the clock reading taken while building
the exp entry plus the requested duration, and the iat claim is a second,
separate clock reading; whenever the two readings coincide (both calls land
in the same second), exp = iat + duration for every duration d, including
all d at least 0. -/
theorem token_exp_iat_single_read (g : TokenGenerator) (u : String) (d : Int)
    (clock : Nat → Int) (p : Payload) (hd : 0 ≤ d)
    (hclk : clock 1 = clock 0)
    (h : g.generate_token u d clock = Except.ok p) : p.exp = p.iat + d := by
  unfold TokenGenerator.generate_token at h
  rcases hf : g.customers.find? (fun e => e.1 == u) with _ | e
  · rw [hf] at h
    exact absurd h (by simp)
  · rw [hf] at h
    injection h with h2
    subst h2
    show clock 0 + d = clock 1 + d
    rw [hclk]

/-- C6 witness: the amended theorem evaluated at sampleGenerator with a
constant clock of 100 and duration 10. -/
theorem token_exp_iat_single_read_witness :
    samplePayload.exp = samplePayload.iat + 10 :=
  token_exp_iat_single_read sampleGenerator "u" 10 (fun _ => 100)
    samplePayload (by decide) rfl (by rfl)

/-- C8 counterexample: with the two tokens tokA and tokB loaded and static
API key KEY, no random draw ever selects the API key — the header is always
one of the loaded JWT tokens, refuting the claim that the API key is chosen
for some request while tokens are loaded. -/
theorem auth_header_never_api_key_cex :
    ¬∃ r : Nat, get_auth_header ["tokA", "tokB"] "KEY" r = "KEY" := by
  rintro ⟨r, h⟩
  unfold get_auth_header pyChoice at h
  rw [if_neg (by decide)] at h
  have hlen : (["tokA", "tokB"] : List String).length = 2 := rfl
  rw [hlen] at h
  have h2 : r % 2 = 0 ∨ r % 2 = 1 := by omega
  rcases h2 with h0 | h0 <;> rw [h0] at h <;> exact absurd h (by decide)

/-- random.choice over a nonempty list always yields a member of the
list. -/
theorem pyChoice_mem {α : Type} (l : List α) (d : α) (rand : Nat)
    (h : l ≠ []) : pyChoice l d rand ∈ l := by
  unfold pyChoice
  have hl : 0 < l.length := List.length_pos.mpr h
  have hlt : rand % l.length < l.length := Nat.mod_lt _ hl
  rw [List.getD_eq_getElem l d hlt]
  exact List.getElem_mem hlt

/-- C8 amended: the per-request credential is chosen at random among the
loaded JWT tokens whenever any are loaded, and the static API key is used
exactly when no token is loaded. -/
theorem auth_header_choice (jwt_tokens : List String) (api_key : String)
    (rand : Nat) :
    (jwt_tokens ≠ [] → get_auth_header jwt_tokens api_key rand ∈ jwt_tokens) ∧
    (jwt_tokens = [] → get_auth_header jwt_tokens api_key rand = api_key) := by
  constructor
  · intro h
    unfold get_auth_header
    rw [if_neg (by simp [List.isEmpty_iff]; exact h)]
    exact pyChoice_mem _ _ _ h
  · intro h
    subst h
    rfl

/-- C8 witness: the amended theorem evaluated with two loaded tokens and
with none. -/
theorem auth_header_choice_witness :
    get_auth_header ["tokA", "tokB"] "KEY" 3 ∈ ["tokA", "tokB"] ∧
    get_auth_header [] "KEY" 3 = "KEY" :=
  ⟨(auth_header_choice ["tokA", "tokB"] "KEY" 3).1 (by decide),
   (auth_header_choice [] "KEY" 3).2 rfl⟩

/-! ## Replenishment loop lemmas -/

/-- Every iteration of the pet loop issues exactly one POST /pet. -/
theorem petLoop_calls (pr : Nat → Option Int) (n : Nat) :
    ∀ (i : Nat) (s : TState),
      (petLoop pr i n s).2 = List.replicate n ApiCall.createPet := by
  induction n with
  | zero => intro i s; rfl
  | succ n ih =>
    intro i s
    cases hp : pr i <;>
      simp [petLoop, create_random_pet, hp, ih, List.replicate_succ]

/-- The pet loop never touches the tracked usernames. -/
theorem petLoop_usernames (pr : Nat → Option Int) (n : Nat) :
    ∀ (i : Nat) (s : TState), (petLoop pr i n s).1.usernames = s.usernames := by
  induction n with
  | zero => intro i s; rfl
  | succ n ih =>
    intro i s
    cases hp : pr i <;> simp [petLoop, create_random_pet, hp, ih]

/-- The pet loop never touches the tracked order ids. -/
theorem petLoop_order_ids (pr : Nat → Option Int) (n : Nat) :
    ∀ (i : Nat) (s : TState), (petLoop pr i n s).1.order_ids = s.order_ids := by
  induction n with
  | zero => intro i s; rfl
  | succ n ih =>
    intro i s
    cases hp : pr i <;> simp [petLoop, create_random_pet, hp, ih]

/-- The pet loop only appends to the tracked pet ids. -/
theorem petLoop_pets_append (pr : Nat → Option Int) (n : Nat) :
    ∀ (i : Nat) (s : TState),
      ∃ l, (petLoop pr i n s).1.pet_ids = s.pet_ids ++ l := by
  induction n with
  | zero => intro i s; exact ⟨[], by simp [petLoop]⟩
  | succ n ih =>
    intro i s
    cases hp : pr i with
    | none =>
      obtain ⟨l, hl⟩ := ih (i + 1) s
      exact ⟨l, by simp [petLoop, create_random_pet, hp, hl]⟩
    | some pid =>
      obtain ⟨l, hl⟩ := ih (i + 1) { s with pet_ids := s.pet_ids ++ [pid] }
      refine ⟨[pid] ++ l, ?_⟩
      simp only [petLoop, create_random_pet, hp]
      rw [hl]
      simp

/-- With every create succeeding (and carrying an id), each pet-loop
iteration appends exactly one tracked pet id. -/
theorem petLoop_length_of_some (pr : Nat → Option Int)
    (hp : ∀ j, (pr j).isSome) (n : Nat) :
    ∀ (i : Nat) (s : TState),
      (petLoop pr i n s).1.pet_ids.length = s.pet_ids.length + n := by
  induction n with
  | zero => intro i s; rfl
  | succ n ih =>
    intro i s
    obtain ⟨pid, hpid⟩ := Option.isSome_iff_exists.mp (hp i)
    simp only [petLoop, create_random_pet, hpid]
    rw [ih]
    simp
    omega

/-- Every iteration of the user loop issues exactly one POST /user. -/
theorem userLoop_calls (un : Nat → String) (uo : Nat → Bool) (n : Nat) :
    ∀ (i : Nat) (s : TState),
      (userLoop un uo i n s).2 = List.replicate n ApiCall.createUser := by
  induction n with
  | zero => intro i s; rfl
  | succ n ih =>
    intro i s
    cases hu : uo i <;>
      simp [userLoop, create_random_user, hu, ih, List.replicate_succ]

/-- The user loop never touches the tracked pet ids. -/
theorem userLoop_pet_ids (un : Nat → String) (uo : Nat → Bool) (n : Nat) :
    ∀ (i : Nat) (s : TState), (userLoop un uo i n s).1.pet_ids = s.pet_ids := by
  induction n with
  | zero => intro i s; rfl
  | succ n ih =>
    intro i s
    cases hu : uo i <;> simp [userLoop, create_random_user, hu, ih]

/-- The user loop never touches the tracked order ids. -/
theorem userLoop_order_ids (un : Nat → String) (uo : Nat → Bool) (n : Nat) :
    ∀ (i : Nat) (s : TState),
      (userLoop un uo i n s).1.order_ids = s.order_ids := by
  induction n with
  | zero => intro i s; rfl
  | succ n ih =>
    intro i s
    cases hu : uo i <;> simp [userLoop, create_random_user, hu, ih]

/-- With every create succeeding, each user-loop iteration appends exactly
one tracked username. -/
theorem userLoop_length_of_true (un : Nat → String) (uo : Nat → Bool)
    (hu : ∀ j, uo j = true) (n : Nat) :
    ∀ (i : Nat) (s : TState),
      (userLoop un uo i n s).1.usernames.length = s.usernames.length + n := by
  induction n with
  | zero => intro i s; rfl
  | succ n ih =>
    intro i s
    simp only [userLoop, create_random_user, hu i, if_pos]
    rw [ih]
    simp
    omega

/-- Every call issued by the order loop is a POST /store/order. -/
theorem orderLoop_calls_subset (orr : Nat → Option Int) (n : Nat) :
    ∀ (i : Nat) (s : TState),
      ∀ c ∈ (orderLoop orr i n s).2, c = ApiCall.createOrder := by
  induction n with
  | zero => intro i s c hc; simp [orderLoop] at hc
  | succ n ih =>
    intro i s c hc
    simp only [orderLoop] at hc
    rw [List.mem_append] at hc
    rcases hc with hc | hc
    · unfold create_random_order at hc
      by_cases he : s.pet_ids.isEmpty
      · simp [he] at hc
      · cases ho : orr i <;> simp [he, ho] at hc <;> exact hc
    · exact ih (i + 1) _ c hc

/-- The order loop never touches the tracked pet ids. -/
theorem orderLoop_pet_ids (orr : Nat → Option Int) (n : Nat) :
    ∀ (i : Nat) (s : TState), (orderLoop orr i n s).1.pet_ids = s.pet_ids := by
  induction n with
  | zero => intro i s; rfl
  | succ n ih =>
    intro i s
    unfold orderLoop create_random_order
    by_cases he : s.pet_ids.isEmpty
    · simp [he, ih]
    · cases ho : orr i <;> simp [he, ho, ih]

/-- The order loop never touches the tracked usernames. -/
theorem orderLoop_usernames (orr : Nat → Option Int) (n : Nat) :
    ∀ (i : Nat) (s : TState),
      (orderLoop orr i n s).1.usernames = s.usernames := by
  induction n with
  | zero => intro i s; rfl
  | succ n ih =>
    intro i s
    unfold orderLoop create_random_order
    by_cases he : s.pet_ids.isEmpty
    · simp [he, ih]
    · cases ho : orr i <;> simp [he, ho, ih]

/-- With a pet tracked, every iteration of the order loop issues exactly one
POST /store/order. -/
theorem orderLoop_calls (orr : Nat → Option Int) (n : Nat) :
    ∀ (i : Nat) (s : TState), ¬s.pet_ids.isEmpty →
      (orderLoop orr i n s).2 = List.replicate n ApiCall.createOrder := by
  induction n with
  | zero => intro i s _; rfl
  | succ n ih =>
    intro i s he
    have hee : s.pet_ids.isEmpty = false := by
      cases hb : s.pet_ids.isEmpty
      · rfl
      · exact absurd hb he
    unfold orderLoop create_random_order
    cases ho : orr i with
    | none => simp [hee, ho, ih (i + 1) s he, List.replicate_succ]
    | some oid =>
      have he2 :
          ¬({ s with order_ids := s.order_ids ++ [oid] } : TState).pet_ids.isEmpty = true := he
      simp [hee, ho, ih (i + 1) _ he2, List.replicate_succ]

/-- With a pet tracked and every create succeeding, each order-loop
iteration appends exactly one tracked order id. -/
theorem orderLoop_length_of_some (orr : Nat → Option Int)
    (ho : ∀ j, (orr j).isSome) (n : Nat) :
    ∀ (i : Nat) (s : TState), ¬s.pet_ids.isEmpty →
      (orderLoop orr i n s).1.order_ids.length = s.order_ids.length + n := by
  induction n with
  | zero => intro i s _; rfl
  | succ n ih =>
    intro i s he
    obtain ⟨oid, hoid⟩ := Option.isSome_iff_exists.mp (ho i)
    have hee : s.pet_ids.isEmpty = false := by
      cases hb : s.pet_ids.isEmpty
      · rfl
      · exact absurd hb he
    have he2 :
        ¬({ s with order_ids := s.order_ids ++ [oid] } : TState).pet_ids.isEmpty = true := he
    unfold orderLoop create_random_order
    simp only [hee, hoid, Bool.false_eq_true, if_false]
    rw [ih (i + 1) _ he2]
    simp
    omega

/-! ## ensure_minimum_entities structure -/

/-- The full call trace of one ensure_minimum_entities run: the pet and user
deficits are always issued, and the order deficit is issued exactly when it
is positive and a pet is tracked after the pet phase. -/
theorem ensure_minimum_calls (cfg : Config) (s : TState)
    (pr : Nat → Option Int) (un : Nat → String) (uo : Nat → Bool)
    (orr : Nat → Option Int) :
    (ensure_minimum_entities cfg s pr un uo orr).2 =
      List.replicate (cfg.min_pets - (s.pet_ids.length : Int)).toNat
        ApiCall.createPet ++
      List.replicate (cfg.min_users - (s.usernames.length : Int)).toNat
        ApiCall.createUser ++
      (if 0 < (cfg.min_orders - (s.order_ids.length : Int)).toNat ∧
          ¬(petLoop pr 0 ((cfg.min_pets - (s.pet_ids.length : Int)).toNat)
            s).1.pet_ids.isEmpty = true
        then
          List.replicate (cfg.min_orders - (s.order_ids.length : Int)).toNat
            ApiCall.createOrder
        else []) := by
  unfold ensure_minimum_entities
  simp only [petLoop_usernames, userLoop_order_ids, petLoop_order_ids,
    userLoop_pet_ids]
  by_cases hg : 0 < (cfg.min_orders - (s.order_ids.length : Int)).toNat ∧
      ¬(petLoop pr 0 ((cfg.min_pets - (s.pet_ids.length : Int)).toNat)
        s).1.pet_ids.isEmpty = true
  · rw [if_pos hg, if_pos hg]
    have hno : ¬((userLoop un uo 0
        ((cfg.min_users - (s.usernames.length : Int)).toNat)
        (petLoop pr 0 ((cfg.min_pets - (s.pet_ids.length : Int)).toNat)
          s).1).1.pet_ids.isEmpty = true) := by
      rw [userLoop_pet_ids]
      exact hg.2
    rw [petLoop_calls, userLoop_calls, orderLoop_calls _ _ _ _ hno]
  · rw [if_neg hg, if_neg hg]
    rw [petLoop_calls, userLoop_calls]
    simp

/-- The tracker state after one ensure_minimum_entities run, with every
create succeeding: the pet and user populations grow by exactly their
deficits, and the order population either grows by its deficit or is left
alone because the deficit was zero or no pet ended up tracked. -/
theorem ensure_minimum_state_lengths (cfg : Config) (s : TState)
    (pr : Nat → Option Int) (un : Nat → String) (uo : Nat → Bool)
    (orr : Nat → Option Int)
    (hp : ∀ i, (pr i).isSome) (hu : ∀ i, uo i = true)
    (ho : ∀ i, (orr i).isSome) :
    (ensure_minimum_entities cfg s pr un uo orr).1.pet_ids.length =
      s.pet_ids.length + (cfg.min_pets - (s.pet_ids.length : Int)).toNat ∧
    (ensure_minimum_entities cfg s pr un uo orr).1.usernames.length =
      s.usernames.length + (cfg.min_users - (s.usernames.length : Int)).toNat ∧
    ((ensure_minimum_entities cfg s pr un uo orr).1.order_ids.length =
        s.order_ids.length +
          (cfg.min_orders - (s.order_ids.length : Int)).toNat ∨
      ((ensure_minimum_entities cfg s pr un uo orr).1.order_ids.length =
          s.order_ids.length ∧
        ((cfg.min_orders - (s.order_ids.length : Int)).toNat = 0 ∨
          (ensure_minimum_entities cfg s pr un uo
            orr).1.pet_ids.isEmpty = true))) := by
  unfold ensure_minimum_entities
  simp only [petLoop_usernames, userLoop_order_ids, petLoop_order_ids,
    userLoop_pet_ids]
  by_cases hg : 0 < (cfg.min_orders - (s.order_ids.length : Int)).toNat ∧
      ¬(petLoop pr 0 ((cfg.min_pets - (s.pet_ids.length : Int)).toNat)
        s).1.pet_ids.isEmpty = true
  · rw [if_pos hg]
    have hno : ¬((userLoop un uo 0
        ((cfg.min_users - (s.usernames.length : Int)).toNat)
        (petLoop pr 0 ((cfg.min_pets - (s.pet_ids.length : Int)).toNat)
          s).1).1.pet_ids.isEmpty = true) := by
      rw [userLoop_pet_ids]
      exact hg.2
    refine ⟨?_, ?_, Or.inl ?_⟩
    · simp only [orderLoop_pet_ids, userLoop_pet_ids]
      exact petLoop_length_of_some pr hp _ _ _
    · simp only [orderLoop_usernames]
      rw [userLoop_length_of_true un uo hu, petLoop_usernames]
    · rw [orderLoop_length_of_some orr ho _ _ _ hno, userLoop_order_ids,
        petLoop_order_ids]
  · rw [if_neg hg]
    refine ⟨?_, ?_, Or.inr ⟨?_, ?_⟩⟩
    · simp only [userLoop_pet_ids]
      exact petLoop_length_of_some pr hp _ _ _
    · rw [userLoop_length_of_true un uo hu, petLoop_usernames]
    · rw [userLoop_order_ids, petLoop_order_ids]
    · rcases not_and_or.mp hg with h1 | h2
      · exact Or.inl (by omega)
      · refine Or.inr ?_
        rw [userLoop_pet_ids]
        exact not_not.mp h2

/-- Counting a call in a run of copies of a different call gives zero. -/
theorem count_other {a b : ApiCall} (n : Nat) (h : (b == a) = false) :
    (List.replicate n b).count a = 0 := by
  rw [List.count_replicate, h]
  rfl

/-- When a pet remains tracked after the pet phase, the order-create count
of ensure_minimum_entities is exactly the order deficit. -/
theorem ensure_order_count_aux (cfg : Config) (s : TState)
    (pr : Nat → Option Int) (un : Nat → String) (uo : Nat → Bool)
    (orr : Nat → Option Int)
    (hfalse : (petLoop pr 0 ((cfg.min_pets - (s.pet_ids.length : Int)).toNat)
      s).1.pet_ids.isEmpty = false) :
    (ensure_minimum_entities cfg s pr un uo orr).2.count ApiCall.createOrder =
      (cfg.min_orders - (s.order_ids.length : Int)).toNat := by
  rw [ensure_minimum_calls, List.count_append, List.count_append,
    count_other _ (by decide), count_other _ (by decide)]
  by_cases hord : 0 < (cfg.min_orders - (s.order_ids.length : Int)).toNat
  · rw [if_pos ⟨hord, by rw [hfalse]; exact Bool.false_ne_true⟩,
      List.count_replicate_self]
    omega
  · rw [if_neg fun hcon => hord hcon.1]
    simp only [List.count_nil]
    omega

/-- C1 (amended): ensure_minimum_entities issues exactly
max(0, minimum - count) pet creates and user creates, in every state and
under every outcome; it issues exactly max(0, minimum - count) order
creates when a pet is tracked (initially, or after a successful pet phase
starting from a positive pet minimum), and zero order creates when no pet
is tracked after the pet phase; and a second run right after a run in
which every create succeeded and was recorded issues no create call at
all. -/
theorem ensure_minimum_create_counts (cfg : Config) (s : TState)
    (pr : Nat → Option Int) (un : Nat → String) (uo : Nat → Bool)
    (orr : Nat → Option Int) (pr2 : Nat → Option Int) (un2 : Nat → String)
    (uo2 : Nat → Bool) (orr2 : Nat → Option Int) :
    ((ensure_minimum_entities cfg s pr un uo orr).2.count ApiCall.createPet =
      (cfg.min_pets - (s.pet_ids.length : Int)).toNat) ∧
    ((ensure_minimum_entities cfg s pr un uo orr).2.count ApiCall.createUser =
      (cfg.min_users - (s.usernames.length : Int)).toNat) ∧
    (s.pet_ids ≠ [] →
      (ensure_minimum_entities cfg s pr un uo orr).2.count
          ApiCall.createOrder =
        (cfg.min_orders - (s.order_ids.length : Int)).toNat) ∧
    (s.pet_ids = [] → cfg.min_pets ≤ 0 →
      (ensure_minimum_entities cfg s pr un uo orr).2.count
        ApiCall.createOrder = 0) ∧
    (s.pet_ids = [] → 0 < cfg.min_pets → (∀ i, (pr i).isSome) →
      (ensure_minimum_entities cfg s pr un uo orr).2.count
          ApiCall.createOrder =
        (cfg.min_orders - (s.order_ids.length : Int)).toNat) ∧
    ((∀ i, (pr i).isSome) → (∀ i, uo i = true) → (∀ i, (orr i).isSome) →
      (ensure_minimum_entities cfg
        (ensure_minimum_entities cfg s pr un uo orr).1 pr2 un2 uo2
        orr2).2 = []) := by
  refine ⟨?_, ?_, ?_, ?_, ?_, ?_⟩
  · rw [ensure_minimum_calls, List.count_append, List.count_append,
      List.count_replicate_self, count_other _ (by decide)]
    have hz : (if 0 < (cfg.min_orders - (s.order_ids.length : Int)).toNat ∧
        ¬(petLoop pr 0 ((cfg.min_pets - (s.pet_ids.length : Int)).toNat)
          s).1.pet_ids.isEmpty = true
        then List.replicate
          ((cfg.min_orders - (s.order_ids.length : Int)).toNat)
          ApiCall.createOrder
        else []).count ApiCall.createPet = 0 := by
      split
      · exact count_other _ (by decide)
      · rfl
    rw [hz]
    omega
  · rw [ensure_minimum_calls, List.count_append, List.count_append,
      List.count_replicate_self, count_other _ (by decide)]
    have hz : (if 0 < (cfg.min_orders - (s.order_ids.length : Int)).toNat ∧
        ¬(petLoop pr 0 ((cfg.min_pets - (s.pet_ids.length : Int)).toNat)
          s).1.pet_ids.isEmpty = true
        then List.replicate
          ((cfg.min_orders - (s.order_ids.length : Int)).toNat)
          ApiCall.createOrder
        else []).count ApiCall.createUser = 0 := by
      split
      · exact count_other _ (by decide)
      · rfl
    rw [hz]
    omega
  · intro hne
    obtain ⟨l, hl⟩ := petLoop_pets_append pr
      ((cfg.min_pets - (s.pet_ids.length : Int)).toNat) 0 s
    have hne2 : (petLoop pr 0
        ((cfg.min_pets - (s.pet_ids.length : Int)).toNat) s).1.pet_ids ≠ [] := by
      rw [hl]
      simp [hne]
    have hfalse : (petLoop pr 0
        ((cfg.min_pets - (s.pet_ids.length : Int)).toNat)
        s).1.pet_ids.isEmpty = false := by
      cases hb : (petLoop pr 0
          ((cfg.min_pets - (s.pet_ids.length : Int)).toNat) s).1.pet_ids.isEmpty
      · rfl
      · exact absurd (List.isEmpty_iff.mp hb) hne2
    exact ensure_order_count_aux cfg s pr un uo orr hfalse
  · intro he hmin
    have hN : (cfg.min_pets - (s.pet_ids.length : Int)).toNat = 0 := by
      rw [he]
      simp
      omega
    rw [ensure_minimum_calls, hN]
    have hg : ¬(0 < (cfg.min_orders - (s.order_ids.length : Int)).toNat ∧
        ¬(petLoop pr 0 0 s).1.pet_ids.isEmpty = true) := by
      rintro ⟨_, hc⟩
      apply hc
      show s.pet_ids.isEmpty = true
      rw [he]
      rfl
    rw [if_neg hg]
    rw [List.count_append, List.count_append, count_other _ (by decide),
      count_other _ (by decide)]
    rfl
  · intro he hmin hp
    have hlen := petLoop_length_of_some pr hp
      ((cfg.min_pets - (s.pet_ids.length : Int)).toNat) 0 s
    have hne2 : (petLoop pr 0
        ((cfg.min_pets - (s.pet_ids.length : Int)).toNat) s).1.pet_ids ≠ [] := by
      intro hnil
      rw [hnil, he] at hlen
      simp at hlen
      omega
    have hfalse : (petLoop pr 0
        ((cfg.min_pets - (s.pet_ids.length : Int)).toNat)
        s).1.pet_ids.isEmpty = false := by
      cases hb : (petLoop pr 0
          ((cfg.min_pets - (s.pet_ids.length : Int)).toNat) s).1.pet_ids.isEmpty
      · rfl
      · exact absurd (List.isEmpty_iff.mp hb) hne2
    exact ensure_order_count_aux cfg s pr un uo orr hfalse
  · intro hp hu ho
    obtain ⟨h1, h2, h3⟩ :=
      ensure_minimum_state_lengths cfg s pr un uo orr hp hu ho
    have hpet0 : (cfg.min_pets -
        (((ensure_minimum_entities cfg s pr un uo
          orr).1.pet_ids.length : Nat) : Int)).toNat = 0 := by
      rw [h1]
      omega
    have huser0 : (cfg.min_users -
        (((ensure_minimum_entities cfg s pr un uo
          orr).1.usernames.length : Nat) : Int)).toNat = 0 := by
      rw [h2]
      omega
    have horder : (cfg.min_orders -
        (((ensure_minimum_entities cfg s pr un uo
          orr).1.order_ids.length : Nat) : Int)).toNat = 0 ∨
        (ensure_minimum_entities cfg s pr un uo
          orr).1.pet_ids.isEmpty = true := by
      rcases h3 with h3 | ⟨h3a, h3b⟩
      · left
        rw [h3]
        omega
      · rcases h3b with hz | hpe
        · left
          rw [h3a]
          omega
        · right
          exact hpe
    rw [ensure_minimum_calls, hpet0, huser0]
    have hg : ¬(0 < (cfg.min_orders -
        (((ensure_minimum_entities cfg s pr un uo
          orr).1.order_ids.length : Nat) : Int)).toNat ∧
        ¬(petLoop pr2 0 0
          (ensure_minimum_entities cfg s pr un uo
            orr).1).1.pet_ids.isEmpty = true) := by
      rintro ⟨hc1, hc2⟩
      rcases horder with h4 | h4
      · omega
      · exact hc2 h4
    rw [if_neg hg]
    simp

/-- C1 counterexample: with minimums pets 0 / users 0 / orders 3 and an
empty tracker, the order count 0 is below its minimum 3, yet
ensure_minimum_entities issues no create call at all (the order loop is
guarded by the presence of a tracked pet), not the claimed 3 - 0 order
creates. -/
theorem ensure_minimum_order_guard_cex :
    (ensure_minimum_entities ⟨0, 0, 3⟩ ⟨[], [], []⟩ (fun _ => some 100)
        (fun i => toString i) (fun _ => true) (fun _ => some 7)).2 = [] ∧
      (0 : Int) < 3 :=
  ⟨by decide, by decide⟩

/-- C1 witness: the amended count theorem evaluated on an empty tracker
with minimums 2 / 1 / 1 — the first run issues two pet creates and a
second run issues nothing. -/
theorem ensure_minimum_create_counts_witness :
    (ensure_minimum_entities ⟨2, 1, 1⟩ ⟨[], [], []⟩ (fun _ => some 50)
        (fun i => toString i) (fun _ => true) (fun _ => some 9)).2.count
        ApiCall.createPet = 2 ∧
    (ensure_minimum_entities ⟨2, 1, 1⟩
        (ensure_minimum_entities ⟨2, 1, 1⟩ ⟨[], [], []⟩ (fun _ => some 50)
          (fun i => toString i) (fun _ => true) (fun _ => some 9)).1
        (fun _ => some 51) (fun i => toString i) (fun _ => false)
        (fun _ => Option.none)).2 = [] :=
  ⟨(ensure_minimum_create_counts ⟨2, 1, 1⟩ ⟨[], [], []⟩ (fun _ => some 50)
      (fun i => toString i) (fun _ => true) (fun _ => some 9)
      (fun _ => some 51) (fun i => toString i) (fun _ => false)
      (fun _ => Option.none)).1,
   (ensure_minimum_create_counts ⟨2, 1, 1⟩ ⟨[], [], []⟩ (fun _ => some 50)
      (fun i => toString i) (fun _ => true) (fun _ => some 9)
      (fun _ => some 51) (fun i => toString i) (fun _ => false)
      (fun _ => Option.none)).2.2.2.2.2 (fun _ => rfl) (fun _ => rfl)
      (fun _ => rfl)⟩

/-! ## Deletion operation lemmas -/

/-- create_random_pet always issues exactly one POST /pet. -/
theorem create_random_pet_calls (s : TState) (pr : Option Int) :
    (create_random_pet s pr).2 = [ApiCall.createPet] := by
  cases pr <;> rfl

/-- create_random_user always issues exactly one POST /user. -/
theorem create_random_user_calls (s : TState) (un : String) (uok : Bool) :
    (create_random_user s un uok).2 = [ApiCall.createUser] := by
  cases uok <;> rfl

/-- create_random_order issues one POST /store/order when a pet is tracked,
and nothing otherwise. -/
theorem create_random_order_calls (s : TState) (orr : Option Int) :
    (create_random_order s orr).2 =
      if s.pet_ids.isEmpty then [] else [ApiCall.createOrder] := by
  unfold create_random_order
  by_cases h : s.pet_ids.isEmpty = true
  · rw [if_pos h, if_pos h]
  · rw [if_neg h, if_neg h]
    cases orr <;> rfl

/-- delete_pet issues exactly one DELETE /pet/pet_id. -/
theorem delete_pet_calls (s : TState) (pid : Int) (o : ReqOutcome) :
    (delete_pet s pid o).2.1 = [ApiCall.deletePet pid] := by
  unfold delete_pet
  rcases h : (make_request "delete" ("/pet/" ++ toString pid) s o).2 with _ | st
  · simp [h]
  · simp only [h]
    split <;> rfl

/-- delete_user issues exactly one DELETE /user/username. -/
theorem delete_user_calls (s : TState) (u : String) (o : ReqOutcome) :
    (delete_user s u o).2.1 = [ApiCall.deleteUser u] := by
  unfold delete_user
  rcases h : (make_request "delete" ("/user/" ++ u) s o).2 with _ | st <;> simp [h]

/-- delete_order issues exactly one DELETE /store/order/order_id. -/
theorem delete_order_calls (s : TState) (oid : Int) (o : ReqOutcome) :
    (delete_order s oid o).2.1 = [ApiCall.deleteOrder oid] := by
  unfold delete_order
  rcases h : (make_request "delete" ("/store/order/" ++ toString oid) s o).2
    with _ | st <;> simp [h]

/-- A member of a filter that drops the protected identifiers is not
protected. -/
theorem mem_filter_not_contains {α : Type} [BEq α] [LawfulBEq α]
    {l prot : List α} {x : α}
    (h : x ∈ l.filter (fun y => !(prot.contains y))) : x ∉ prot := by
  rw [List.mem_filter] at h
  intro hc
  have hb : prot.contains x = true :=
    List.contains_iff_exists_mem_beq.mpr ⟨x, hc, by simp⟩
  rw [hb] at h
  simp at h

/-- A deletion candidate is a tracked, non-protected pet. -/
theorem mem_deletable_pets {s : TState} {pid : Int}
    (h : pid ∈ deletable_pets s) :
    pid ∈ s.pet_ids ∧ pid ∉ protected_pet_ids :=
  ⟨(List.mem_filter.mp h).1, mem_filter_not_contains h⟩

/-- A deletion candidate is a tracked, non-protected username. -/
theorem mem_deletable_users {s : TState} {u : String}
    (h : u ∈ deletable_users s) :
    u ∈ s.usernames ∧ u ∉ protected_usernames :=
  ⟨(List.mem_filter.mp h).1, mem_filter_not_contains h⟩

/-- A deletion candidate is a tracked, non-protected order. -/
theorem mem_deletable_orders {s : TState} {oid : Int}
    (h : oid ∈ deletable_orders s) :
    oid ∈ s.order_ids ∧ oid ∉ protected_order_ids :=
  ⟨(List.mem_filter.mp h).1, mem_filter_not_contains h⟩

/-- In the branch of op_delete_pet that deletes, the call trace is exactly
one DELETE of the randomly chosen candidate. -/
theorem op_delete_pet_calls_delete (cfg : Config) (s : TState) (rand : Nat)
    (o : ReqOutcome) (pr : Option Int)
    (h2 : ¬(deletable_pets s).isEmpty = true)
    (h3 : ¬(((deletable_pets s).length : Int) ≤
      cfg.min_pets - (protected_pet_ids.length : Int))) :
    (op_delete_pet cfg s rand o pr).2 =
      [ApiCall.deletePet (pyChoice (deletable_pets s) 0 rand)] := by
  have h1 : ¬s.pet_ids.isEmpty = true := by
    intro hc
    apply h2
    rw [List.isEmpty_iff] at hc ⊢
    rw [deletable_pets, hc]
    rfl
  unfold op_delete_pet
  rw [if_neg h1, if_neg h2, if_neg h3]
  simp only []
  split
  · exact delete_pet_calls _ _ _
  · exact delete_pet_calls _ _ _

/-- In the branch of op_delete_user that deletes, the call trace is exactly
one DELETE of the randomly chosen candidate. -/
theorem op_delete_user_calls_delete (cfg : Config) (s : TState) (rand : Nat)
    (o : ReqOutcome) (uname : String) (uok : Bool)
    (h2 : ¬(deletable_users s).isEmpty = true)
    (h3 : ¬(((deletable_users s).length : Int) ≤
      cfg.min_users - (protected_user_ids.length : Int))) :
    (op_delete_user cfg s rand o uname uok).2 =
      [ApiCall.deleteUser (pyChoice (deletable_users s) "" rand)] := by
  have h1 : ¬s.usernames.isEmpty = true := by
    intro hc
    apply h2
    rw [List.isEmpty_iff] at hc ⊢
    rw [deletable_users, hc]
    rfl
  unfold op_delete_user
  rw [if_neg h1, if_neg h2, if_neg h3]
  exact delete_user_calls _ _ _

/-- In the branch of op_delete_order that deletes, the call trace is exactly
one DELETE of the randomly chosen candidate. -/
theorem op_delete_order_calls_delete (cfg : Config) (s : TState) (rand : Nat)
    (o : ReqOutcome) (orr : Option Int)
    (h2 : ¬(deletable_orders s).isEmpty = true)
    (h3 : ¬(((deletable_orders s).length : Int) ≤
      cfg.min_orders - (protected_order_ids.length : Int))) :
    (op_delete_order cfg s rand o orr).2 =
      [ApiCall.deleteOrder (pyChoice (deletable_orders s) 0 rand)] := by
  have h1 : ¬s.order_ids.isEmpty = true := by
    intro hc
    apply h2
    rw [List.isEmpty_iff] at hc ⊢
    rw [deletable_orders, hc]
    rfl
  unfold op_delete_order
  rw [if_neg h1, if_neg h2, if_neg h3]
  exact delete_order_calls _ _ _

/-- C2: the deletion operations never issue a DELETE for an identifier in
the protected reserved range — every DELETE they emit targets a
non-protected pet id, a username outside user1..user5, or a non-protected
order id. -/
theorem delete_ops_never_protected (cfg : Config) (s : TState) (rand : Nat)
    (o : ReqOutcome) (pr : Option Int) (uname : String) (uok : Bool)
    (orr : Option Int) :
    (∀ pid : Int, ApiCall.deletePet pid ∈ (op_delete_pet cfg s rand o pr).2 →
      pid ∉ protected_pet_ids) ∧
    (∀ u : String,
      ApiCall.deleteUser u ∈ (op_delete_user cfg s rand o uname uok).2 →
      u ∉ protected_usernames) ∧
    (∀ oid : Int,
      ApiCall.deleteOrder oid ∈ (op_delete_order cfg s rand o orr).2 →
      oid ∉ protected_order_ids) := by
  refine ⟨?_, ?_, ?_⟩
  · intro pid hmem
    by_cases h1 : s.pet_ids.isEmpty = true
    · unfold op_delete_pet at hmem
      rw [if_pos h1] at hmem
      simp at hmem
    · by_cases h2 : (deletable_pets s).isEmpty = true
      · unfold op_delete_pet at hmem
        rw [if_neg h1, if_pos h2, create_random_pet_calls] at hmem
        simp at hmem
      · by_cases h3 : ((deletable_pets s).length : Int) ≤
            cfg.min_pets - (protected_pet_ids.length : Int)
        · unfold op_delete_pet at hmem
          rw [if_neg h1, if_neg h2, if_pos h3, create_random_pet_calls] at hmem
          simp at hmem
        · rw [op_delete_pet_calls_delete cfg s rand o pr h2 h3] at hmem
          simp only [List.mem_singleton, ApiCall.deletePet.injEq] at hmem
          subst hmem
          exact (mem_deletable_pets (pyChoice_mem _ _ _
            (fun hc => h2 (by rw [hc]; rfl)))).2
  · intro u hmem
    by_cases h1 : s.usernames.isEmpty = true
    · unfold op_delete_user at hmem
      rw [if_pos h1] at hmem
      simp at hmem
    · by_cases h2 : (deletable_users s).isEmpty = true
      · unfold op_delete_user at hmem
        rw [if_neg h1, if_pos h2, create_random_user_calls] at hmem
        simp at hmem
      · by_cases h3 : ((deletable_users s).length : Int) ≤
            cfg.min_users - (protected_user_ids.length : Int)
        · unfold op_delete_user at hmem
          rw [if_neg h1, if_neg h2, if_pos h3, create_random_user_calls] at hmem
          simp at hmem
        · rw [op_delete_user_calls_delete cfg s rand o uname uok h2 h3] at hmem
          simp only [List.mem_singleton, ApiCall.deleteUser.injEq] at hmem
          subst hmem
          exact (mem_deletable_users (pyChoice_mem _ _ _
            (fun hc => h2 (by rw [hc]; rfl)))).2
  · intro oid hmem
    by_cases h1 : s.order_ids.isEmpty = true
    · unfold op_delete_order at hmem
      rw [if_pos h1] at hmem
      simp at hmem
    · by_cases h2 : (deletable_orders s).isEmpty = true
      · unfold op_delete_order at hmem
        rw [if_neg h1, if_pos h2, create_random_order_calls] at hmem
        by_cases hpe : s.pet_ids.isEmpty = true
        · rw [if_pos hpe] at hmem
          simp at hmem
        · rw [if_neg hpe] at hmem
          simp at hmem
      · by_cases h3 : ((deletable_orders s).length : Int) ≤
            cfg.min_orders - (protected_order_ids.length : Int)
        · unfold op_delete_order at hmem
          rw [if_neg h1, if_neg h2, if_pos h3, create_random_order_calls] at hmem
          by_cases hpe : s.pet_ids.isEmpty = true
          · rw [if_pos hpe] at hmem
            simp at hmem
          · rw [if_neg hpe] at hmem
            simp at hmem
        · rw [op_delete_order_calls_delete cfg s rand o orr h2 h3] at hmem
          simp only [List.mem_singleton, ApiCall.deleteOrder.injEq] at hmem
          subst hmem
          exact (mem_deletable_orders (pyChoice_mem _ _ _
            (fun hc => h2 (by rw [hc]; rfl)))).2

/-- C2 witness: with one tracked non-protected pet 10, user bob and order
20 and minimums 0, the three deletion operations emit DELETEs for exactly
those identifiers, all outside the protected range. -/
theorem delete_ops_never_protected_witness :
    (10 : Int) ∉ protected_pet_ids ∧
    "bob" ∉ protected_usernames ∧
    (20 : Int) ∉ protected_order_ids :=
  ⟨(delete_ops_never_protected ⟨0, 0, 0⟩ ⟨[10], ["bob"], [20]⟩ 0
      (ReqOutcome.ok 200) (some 1) "x" true (some 2)).1 10 (by decide),
   (delete_ops_never_protected ⟨0, 0, 0⟩ ⟨[10], ["bob"], [20]⟩ 0
      (ReqOutcome.ok 200) (some 1) "x" true (some 2)).2.1 "bob" (by decide),
   (delete_ops_never_protected ⟨0, 0, 0⟩ ⟨[10], ["bob"], [20]⟩ 0
      (ReqOutcome.ok 200) (some 1) "x" true (some 2)).2.2 20 (by decide)⟩

/-- C3 counterexample: with min_pets = 10 and seven tracked non-protected
pets 6..12, deleting one would drop the non-protected population to 6,
which is at or below the configured minimum 10 — yet op_delete_pet issues a
DELETE for pet 6 and no create (the code's guard compares against
min_pets - 5, i.e. 5, not against min_pets). -/
theorem delete_threshold_cex :
    (op_delete_pet ⟨10, 5, 3⟩ ⟨[6, 7, 8, 9, 10, 11, 12], [], []⟩ 0
        (ReqOutcome.ok 200) (some 99)).2 = [ApiCall.deletePet 6] ∧
    ((7 : Int) - 1 ≤ 10) ∧
    ApiCall.createPet ∉ (op_delete_pet ⟨10, 5, 3⟩
        ⟨[6, 7, 8, 9, 10, 11, 12], [], []⟩ 0
        (ReqOutcome.ok 200) (some 99)).2 :=
  ⟨by decide, by decide, by decide⟩

/-- C3 (amended): the deletion operations substitute a create for the
delete exactly at the code's threshold — when the non-protected candidate
list is nonempty but its size is at most minimum - 5 (five being the size
of the protected id range), the operation issues one create call and never
a delete call; for orders the substituted create itself issues no request
when no pet is tracked. -/
theorem delete_threshold_creates (cfg : Config) (s : TState) (rand : Nat)
    (o : ReqOutcome) (pr : Option Int) (uname : String) (uok : Bool)
    (orr : Option Int) :
    (deletable_pets s ≠ [] →
      ((deletable_pets s).length : Int) ≤
        cfg.min_pets - (protected_pet_ids.length : Int) →
      (op_delete_pet cfg s rand o pr).2 = [ApiCall.createPet] ∧
      ∀ pid : Int, ApiCall.deletePet pid ∉ (op_delete_pet cfg s rand o pr).2) ∧
    (deletable_users s ≠ [] →
      ((deletable_users s).length : Int) ≤
        cfg.min_users - (protected_user_ids.length : Int) →
      (op_delete_user cfg s rand o uname uok).2 = [ApiCall.createUser] ∧
      ∀ u : String,
        ApiCall.deleteUser u ∉ (op_delete_user cfg s rand o uname uok).2) ∧
    (deletable_orders s ≠ [] →
      ((deletable_orders s).length : Int) ≤
        cfg.min_orders - (protected_order_ids.length : Int) →
      (op_delete_order cfg s rand o orr).2 =
        (if s.pet_ids.isEmpty then [] else [ApiCall.createOrder]) ∧
      ∀ oid : Int,
        ApiCall.deleteOrder oid ∉ (op_delete_order cfg s rand o orr).2) := by
  refine ⟨?_, ?_, ?_⟩
  · intro hne hth
    have h2 : ¬(deletable_pets s).isEmpty = true := by
      rw [List.isEmpty_iff]
      exact hne
    have h1 : ¬s.pet_ids.isEmpty = true := by
      intro hc
      apply hne
      rw [List.isEmpty_iff] at hc
      rw [deletable_pets, hc]
      rfl
    have heq : (op_delete_pet cfg s rand o pr).2 = [ApiCall.createPet] := by
      unfold op_delete_pet
      rw [if_neg h1, if_neg h2, if_pos hth]
      exact create_random_pet_calls _ _
    exact ⟨heq, fun pid => by rw [heq]; simp⟩
  · intro hne hth
    have h2 : ¬(deletable_users s).isEmpty = true := by
      rw [List.isEmpty_iff]
      exact hne
    have h1 : ¬s.usernames.isEmpty = true := by
      intro hc
      apply hne
      rw [List.isEmpty_iff] at hc
      rw [deletable_users, hc]
      rfl
    have heq : (op_delete_user cfg s rand o uname uok).2 =
        [ApiCall.createUser] := by
      unfold op_delete_user
      rw [if_neg h1, if_neg h2, if_pos hth]
      exact create_random_user_calls _ _ _
    exact ⟨heq, fun u => by rw [heq]; simp⟩
  · intro hne hth
    have h2 : ¬(deletable_orders s).isEmpty = true := by
      rw [List.isEmpty_iff]
      exact hne
    have h1 : ¬s.order_ids.isEmpty = true := by
      intro hc
      apply hne
      rw [List.isEmpty_iff] at hc
      rw [deletable_orders, hc]
      rfl
    have heq : (op_delete_order cfg s rand o orr).2 =
        (if s.pet_ids.isEmpty then [] else [ApiCall.createOrder]) := by
      unfold op_delete_order
      rw [if_neg h1, if_neg h2, if_pos hth]
      exact create_random_order_calls _ _
    refine ⟨heq, fun oid => ?_⟩
    rw [heq]
    by_cases hpe : s.pet_ids.isEmpty = true
    · rw [if_pos hpe]
      simp
    · rw [if_neg hpe]
      simp

/-- C3 witness: with min_pets = 10 and only two non-protected pets 6, 7
tracked, op_delete_pet substitutes one pet create and issues no delete. -/
theorem delete_threshold_creates_witness :
    (op_delete_pet ⟨10, 5, 3⟩ ⟨[6, 7], [], []⟩ 0 (ReqOutcome.ok 200)
        (some 99)).2 = [ApiCall.createPet] ∧
    ApiCall.deletePet 6 ∉ (op_delete_pet ⟨10, 5, 3⟩ ⟨[6, 7], [], []⟩ 0
        (ReqOutcome.ok 200) (some 99)).2 :=
  ⟨((delete_threshold_creates ⟨10, 5, 3⟩ ⟨[6, 7], [], []⟩ 0
      (ReqOutcome.ok 200) (some 99) "x" true (some 2)).1 (by decide)
      (by decide)).1,
   ((delete_threshold_creates ⟨10, 5, 3⟩ ⟨[6, 7], [], []⟩ 0
      (ReqOutcome.ok 200) (some 99) "x" true (some 2)).1 (by decide)
      (by decide)).2 6⟩

/-- C5 counterexample: with no pets tracked, op_delete_pet returns without
issuing any request at all — in particular no pet create — refuting the
claim that every operation with an unmet precondition falls back to a
create call. -/
theorem op_delete_pet_no_fallback_cex :
    (op_delete_pet ⟨10, 5, 3⟩ ⟨[], [], []⟩ 0 (ReqOutcome.ok 200)
        (some 99)).2 = [] ∧
    ApiCall.createPet ∉ (op_delete_pet ⟨10, 5, 3⟩ ⟨[], [], []⟩ 0
        (ReqOutcome.ok 200) (some 99)).2 :=
  ⟨by decide, by decide⟩

/-- C5 (amended): with the tracked pet set empty, op_update_pet and
op_get_pet fall back to issuing exactly one pet create; op_delete_pet is
the exception — it issues no call at all when the tracked set is empty, and
falls back to a pet create only when pets are tracked but none is a
deletion candidate. -/
theorem precondition_fallbacks (cfg : Config) (s : TState) (rand : Nat)
    (o1 o2 o : ReqOutcome) (pr : Option Int) :
    (s.pet_ids = [] → (op_update_pet s rand o1 o2 pr).2 = [ApiCall.createPet]) ∧
    (s.pet_ids = [] → (op_get_pet s rand o pr).2 = [ApiCall.createPet]) ∧
    (s.pet_ids = [] → (op_delete_pet cfg s rand o pr).2 = []) ∧
    (s.pet_ids ≠ [] → deletable_pets s = [] →
      (op_delete_pet cfg s rand o pr).2 = [ApiCall.createPet]) := by
  refine ⟨?_, ?_, ?_, ?_⟩
  · intro he
    have h1 : s.pet_ids.isEmpty = true := by
      rw [List.isEmpty_iff]
      exact he
    unfold op_update_pet
    rw [if_pos h1]
    exact create_random_pet_calls _ _
  · intro he
    have h1 : s.pet_ids.isEmpty = true := by
      rw [List.isEmpty_iff]
      exact he
    unfold op_get_pet
    rw [if_pos h1]
    exact create_random_pet_calls _ _
  · intro he
    have h1 : s.pet_ids.isEmpty = true := by
      rw [List.isEmpty_iff]
      exact he
    unfold op_delete_pet
    rw [if_pos h1]
  · intro hne hdel
    have h1 : ¬s.pet_ids.isEmpty = true := by
      rw [List.isEmpty_iff]
      exact hne
    have h2 : (deletable_pets s).isEmpty = true := by
      rw [List.isEmpty_iff]
      exact hdel
    unfold op_delete_pet
    rw [if_neg h1, if_pos h2]
    exact create_random_pet_calls _ _

/-- C5 witness: the fallback theorem evaluated on the empty tracker and on
a tracker whose only pets are protected. -/
theorem precondition_fallbacks_witness :
    (op_update_pet ⟨[], [], []⟩ 0 (ReqOutcome.ok 200) (ReqOutcome.ok 200)
        (some 99)).2 = [ApiCall.createPet] ∧
    (op_delete_pet ⟨10, 5, 3⟩ ⟨[1, 2], [], []⟩ 0 (ReqOutcome.ok 200)
        (some 99)).2 = [ApiCall.createPet] :=
  ⟨(precondition_fallbacks ⟨10, 5, 3⟩ ⟨[], [], []⟩ 0 (ReqOutcome.ok 200)
      (ReqOutcome.ok 200) (ReqOutcome.ok 200) (some 99)).1 rfl,
   (precondition_fallbacks ⟨10, 5, 3⟩ ⟨[1, 2], [], []⟩ 0 (ReqOutcome.ok 200)
      (ReqOutcome.ok 200) (ReqOutcome.ok 200) (some 99)).2.2.2 (by decide)
      (by decide)⟩

/-- C7: request outcome classification — every caught exception (timeout,
connection error, other) is converted to the no-response sentinel rather
than propagated; a DELETE with status 200 or 204 returns the response and
delete_pet classifies it as success; every non-2xx status yields the
no-response sentinel for every method and delete_pet classifies it as
failure. -/
theorem request_outcome_classification (m e : String) (s : TState)
    (st : Nat) (pid : Int) :
    ((make_request m e s ReqOutcome.timeout).2 = Option.none) ∧
    ((make_request m e s ReqOutcome.connError).2 = Option.none) ∧
    ((make_request m e s ReqOutcome.exc).2 = Option.none) ∧
    ((st = 200 ∨ st = 204) →
      (make_request "delete" e s (ReqOutcome.ok st)).2 = some st) ∧
    ((st = 200 ∨ st = 204) →
      (delete_pet s pid (ReqOutcome.ok st)).2.2 = true) ∧
    (¬(200 ≤ st ∧ st < 300) →
      (make_request m e s (ReqOutcome.ok st)).2 = Option.none) ∧
    (¬(200 ≤ st ∧ st < 300) →
      (delete_pet s pid (ReqOutcome.ok st)).2.2 = false) := by
  have hdel : ∀ (e' : String), (st = 200 ∨ st = 204) →
      (make_request "delete" e' s (ReqOutcome.ok st)).2 = some st := by
    intro e' h
    simp only [make_request]
    rw [if_pos ⟨trivial, h⟩]
  have hfailm : ∀ (m' e' : String), ¬(200 ≤ st ∧ st < 300) →
      (make_request m' e' s (ReqOutcome.ok st)).2 = Option.none := by
    intro m' e' h
    have h1 : ¬(m' = "delete" ∧ (st = 200 ∨ st = 204)) := by
      rintro ⟨_, h2 | h2⟩ <;> subst h2 <;> exact h (by omega)
    simp only [make_request]
    rw [if_neg h1, if_neg h]
    by_cases h404 : st = 404
    · rw [if_pos h404]
    · rw [if_neg h404]
  refine ⟨rfl, rfl, rfl, hdel e, ?_, hfailm m e, ?_⟩
  · intro h
    unfold delete_pet
    simp only []
    rw [hdel _ h]
    simp only []
    rw [if_pos h]
  · intro h
    unfold delete_pet
    simp only []
    rw [hfailm _ _ h]

/-- C7 witness: the classification theorem evaluated at a timeout, a DELETE
returning 204, and a DELETE returning 500. -/
theorem request_outcome_classification_witness :
    (make_request "get" "/pet/3" ⟨[3], [], []⟩ ReqOutcome.timeout).2 =
      Option.none ∧
    (delete_pet ⟨[3], [], []⟩ 3 (ReqOutcome.ok 204)).2.2 = true ∧
    (delete_pet ⟨[3], [], []⟩ 3 (ReqOutcome.ok 500)).2.2 = false :=
  ⟨(request_outcome_classification "get" "/pet/3" ⟨[3], [], []⟩ 204 3).1,
   (request_outcome_classification "get" "/pet/3" ⟨[3], [], []⟩ 204
      3).2.2.2.2.1 (by decide),
   (request_outcome_classification "get" "/pet/3" ⟨[3], [], []⟩ 500
      3).2.2.2.2.2.2 (by decide)⟩

/-- C4: the 404 cleanup removes a tracked id by substring-matching its
decimal string against the endpoint.  With pets 1 and 12 tracked, a GET of
/pet/12 that returns 404 removes pet 1 (the first tracked id whose string
"1" occurs in "/pet/12") and keeps pet 12 tracked — not the claimed removal
of exactly the requested id 12. -/
theorem reconcile404_substring_bug :
    (make_request "get" "/pet/12" ⟨[1, 12], [], []⟩
      (ReqOutcome.ok 404)).1.pet_ids = [12] :=
  by decide

/-! ## make_request state characterization and C9 -/

/-- A 2xx response is returned to the caller with the tracker untouched. -/
theorem make_request_ok_2xx_eq (m e : String) (s : TState) (st : Nat)
    (h2xx : 200 ≤ st ∧ st < 300) :
    make_request m e s (ReqOutcome.ok st) = (s, some st) := by
  simp only [make_request]
  by_cases hd : m = "delete" ∧ (st = 200 ∨ st = 204)
  · rw [if_pos hd]
  · rw [if_neg hd, if_pos h2xx]

/-- A non-2xx response yields the no-response sentinel, after the 404
cleanup when applicable. -/
theorem make_request_non2xx_eq (m e : String) (s : TState) (st : Nat)
    (h : ¬(200 ≤ st ∧ st < 300)) :
    make_request m e s (ReqOutcome.ok st) =
      (if st = 404 then reconcile404 e s else s, Option.none) := by
  have h1 : ¬(m = "delete" ∧ (st = 200 ∨ st = 204)) := by
    rintro ⟨_, h2 | h2⟩ <;> subst h2 <;> exact h (by omega)
  simp only [make_request]
  rw [if_neg h1, if_neg h]
  by_cases h404 : st = 404
  · rw [if_pos h404, if_pos h404]
  · rw [if_neg h404, if_neg h404]

/-- The 404 cleanup either leaves the tracked pets alone or erases the
first tracked pet whose decimal string occurs in the endpoint. -/
theorem reconcile404_pet_ids (e : String) (s : TState) :
    (reconcile404 e s).pet_ids = s.pet_ids ∨
    (reconcile404 e s).pet_ids =
      s.pet_ids.eraseP (fun pid => pyIn (toString pid) e) := by
  unfold reconcile404
  split
  · right; rfl
  · split
    · left; rfl
    · split
      · left; rfl
      · left; rfl

/-- When the outcome is not a 200/204 response, delete_pet reports failure,
and the tracked pets are either untouched or have one entry removed by the
404 cleanup's substring match. -/
theorem delete_pet_failure_state (s : TState) (pid : Int) (o : ReqOutcome)
    (hfail : ∀ st, o = ReqOutcome.ok st → st ≠ 200 ∧ st ≠ 204) :
    (delete_pet s pid o).2.2 = false ∧
    ((delete_pet s pid o).1.pet_ids = s.pet_ids ∨
      (delete_pet s pid o).1.pet_ids =
        s.pet_ids.eraseP
          (fun pid2 => pyIn (toString pid2) ("/pet/" ++ toString pid))) := by
  rcases o with st | _ | _ | _
  · obtain ⟨ha, hb⟩ := hfail st rfl
    have hcond : ¬(st = 200 ∨ st = 204) := by
      rintro (hc | hc)
      · exact ha hc
      · exact hb hc
    unfold delete_pet
    by_cases h2xx : 200 ≤ st ∧ st < 300
    · rw [make_request_ok_2xx_eq "delete" _ s st h2xx]
      simp only []
      rw [if_neg hcond]
      exact ⟨rfl, Or.inl rfl⟩
    · rw [make_request_non2xx_eq "delete" _ s st h2xx]
      simp only []
      by_cases h404 : st = 404
      · rw [if_pos h404]
        exact ⟨by trivial, reconcile404_pet_ids _ s⟩
      · rw [if_neg h404]
        exact ⟨by trivial, Or.inl rfl⟩
  · exact ⟨rfl, Or.inl rfl⟩
  · exact ⟨rfl, Or.inl rfl⟩
  · exact ⟨rfl, Or.inl rfl⟩

/-- C9: when op_delete_pet reaches its delete branch and the delete fails
(any outcome other than a 200/204 response), the chosen pet id is removed
from the local tracked set anyway — the tracking state is mutated on the
error path (stated for duplicate-free tracking lists, which create and
refresh maintain). -/
theorem op_delete_pet_failure_untracks (cfg : Config) (s : TState)
    (rand : Nat) (o : ReqOutcome) (pr : Option Int)
    (hnd : s.pet_ids.Nodup)
    (hdel : deletable_pets s ≠ [])
    (hthr : ¬(((deletable_pets s).length : Int) ≤
      cfg.min_pets - (protected_pet_ids.length : Int)))
    (hfail : ∀ st, o = ReqOutcome.ok st → st ≠ 200 ∧ st ≠ 204) :
    pyChoice (deletable_pets s) 0 rand ∉
      (op_delete_pet cfg s rand o pr).1.pet_ids ∧
    (op_delete_pet cfg s rand o pr).1.pet_ids.length < s.pet_ids.length := by
  have hmemd : pyChoice (deletable_pets s) 0 rand ∈ deletable_pets s :=
    pyChoice_mem _ _ _ hdel
  have hmem : pyChoice (deletable_pets s) 0 rand ∈ s.pet_ids :=
    (mem_deletable_pets hmemd).1
  have h2 : ¬(deletable_pets s).isEmpty = true := by
    rw [List.isEmpty_iff]
    exact hdel
  have h1 : ¬s.pet_ids.isEmpty = true := by
    rw [List.isEmpty_iff]
    intro hc
    rw [hc] at hmem
    exact absurd hmem (List.not_mem_nil _)
  have hpos : 0 < s.pet_ids.length := by
    rcases hq : s.pet_ids with _ | ⟨a, l⟩
    · rw [hq] at hmem
      exact absurd hmem (List.not_mem_nil _)
    · simp
  obtain ⟨hfb, hstate⟩ :=
    delete_pet_failure_state s (pyChoice (deletable_pets s) 0 rand) o hfail
  unfold op_delete_pet
  rw [if_neg h1, if_neg h2, if_neg hthr]
  simp only []
  rw [if_neg (by rw [hfb]; exact Bool.false_ne_true)]
  constructor
  · show pyChoice (deletable_pets s) 0 rand ∉
      (delete_pet s (pyChoice (deletable_pets s) 0 rand) o).1.pet_ids.erase
        (pyChoice (deletable_pets s) 0 rand)
    rcases hstate with hX | hX
    · rw [hX]
      intro hcon
      rw [hnd.mem_erase_iff] at hcon
      exact hcon.1 rfl
    · rw [hX]
      have hsub : (s.pet_ids.eraseP
          (fun pid2 => pyIn (toString pid2)
            ("/pet/" ++ toString (pyChoice (deletable_pets s) 0
              rand)))).Sublist s.pet_ids := List.eraseP_sublist _
      intro hcon
      rw [(hsub.nodup hnd).mem_erase_iff] at hcon
      exact hcon.1 rfl
  · show ((delete_pet s (pyChoice (deletable_pets s) 0 rand) o).1.pet_ids.erase
      (pyChoice (deletable_pets s) 0 rand)).length < s.pet_ids.length
    rcases hstate with hX | hX
    · rw [hX, List.length_erase_of_mem hmem]
      omega
    · rw [hX]
      have hsub : (s.pet_ids.eraseP
          (fun pid2 => pyIn (toString pid2)
            ("/pet/" ++ toString (pyChoice (deletable_pets s) 0
              rand)))).Sublist s.pet_ids := List.eraseP_sublist _
      have hle := hsub.length_le
      by_cases hin : pyChoice (deletable_pets s) 0 rand ∈
          s.pet_ids.eraseP
            (fun pid2 => pyIn (toString pid2)
              ("/pet/" ++ toString (pyChoice (deletable_pets s) 0 rand)))
      · rw [List.length_erase_of_mem hin]
        have hpos2 : 0 < (s.pet_ids.eraseP
            (fun pid2 => pyIn (toString pid2)
              ("/pet/" ++ toString (pyChoice (deletable_pets s) 0
                rand)))).length := by
          rcases hq : s.pet_ids.eraseP
              (fun pid2 => pyIn (toString pid2)
                ("/pet/" ++ toString (pyChoice (deletable_pets s) 0
                  rand))) with _ | ⟨a, l⟩
          · rw [hq] at hin
            exact absurd hin (List.not_mem_nil _)
          · simp
        omega
      · rw [List.erase_of_not_mem hin]
        rcases Nat.lt_or_ge (s.pet_ids.eraseP
            (fun pid2 => pyIn (toString pid2)
              ("/pet/" ++ toString (pyChoice (deletable_pets s) 0
                rand)))).length s.pet_ids.length with hlt | hge
        · exact hlt
        · have heq := hsub.eq_of_length (le_antisymm hle hge)
          rw [heq] at hin
          exact absurd hmem hin

/-- C9 witness: one tracked non-protected pet 6, a DELETE returning 500 —
the failed delete still removes pet 6 from tracking. -/
theorem op_delete_pet_failure_untracks_witness :
    (6 : Int) ∉ (op_delete_pet ⟨0, 0, 0⟩ ⟨[6], [], []⟩ 0 (ReqOutcome.ok 500)
      Option.none).1.pet_ids ∧
    (op_delete_pet ⟨0, 0, 0⟩ ⟨[6], [], []⟩ 0 (ReqOutcome.ok 500)
      Option.none).1.pet_ids.length < 1 :=
  op_delete_pet_failure_untracks ⟨0, 0, 0⟩ ⟨[6], [], []⟩ 0 (ReqOutcome.ok 500)
    Option.none (by decide) (by decide) (by decide)
    (by
      intro st h
      injection h with h2
      subst h2
      exact ⟨by decide, by decide⟩)

end Petstore
